import Mathlib

/-!
Shallow embedding of the hann-rs library: `src/hann_window.rs` and
`src/sum_of_hann_window_squares.rs`.

Window samples (Rust `f32` values) are modelled as real numbers, with the
`cos` intrinsic modelled by `Real.cos`; `usize` is modelled as a 64-bit
unsigned integer, so `usize::MAX` is `2 ^ 64 - 1`.  The two `lazy_static`
hash maps are modelled as association lists keyed by window length, and
`HashMap::get` as `List.lookup`.  Fallible functions return `Except`.
-/

namespace HannRs

/-- Error type for the Hann window function (`HannWindowError` in
`src/hann_window.rs`). -/
inductive HannWindowError where
  | WindowLengthTooSmall
  | WindowLengthTooLarge
  | MemoryAllocationError
  deriving DecidableEq

/-- Model of `usize::MAX` on a 64-bit platform. -/
def usizeMax : Nat := 2 ^ 64 - 1

/-- Model of `let half_length = (window_length + (window_length % 2)) / 2`
from `calculate_hann_window`. -/
def half_length (window_length : Nat) : Nat :=
  (window_length + window_length % 2) / 2

/-- Model of `let scaling_factor = (PI * 2.0) / ((window_length - 1) as f32)`
from `calculate_hann_window`. -/
noncomputable def scaling_factor (window_length : Nat) : ℝ :=
  Real.pi * 2 / ((window_length - 1 : Nat) : ℝ)

/-- The value written by the loop body of `calculate_hann_window`:
`0.5 - 0.5 * ((scaling_factor * (i as f32)).cos() as f32)`. -/
noncomputable def hannCoeff (window_length i : Nat) : ℝ :=
  0.5 - 0.5 * Real.cos (scaling_factor window_length * (i : ℝ))

/-- One iteration of the mirroring loop of `calculate_hann_window`:
`window[i] = 0.5 - 0.5 * (...).cos(); window[window_length - 1 - i] = window[i]`. -/
noncomputable def hannStep (window_length : Nat) (window : List ℝ) (i : Nat) : List ℝ :=
  let w := window.set i (hannCoeff window_length i)
  w.set (window_length - 1 - i) (w.getD i 0)

/-- The window built by `calculate_hann_window` after validation:
`let mut window = vec![0.0; window_length]` followed by the mirroring loop
`for i in 0..half_length`. -/
noncomputable def hannBody (window_length : Nat) : List ℝ :=
  (List.range (half_length window_length)).foldl (hannStep window_length)
    (List.replicate window_length (0 : ℝ))

/-- Model of `calculate_hann_window` from `src/hann_window.rs`. -/
noncomputable def calculate_hann_window (window_length : Nat) :
    Except HannWindowError (List ℝ) :=
  if window_length ≤ 1 then .error .WindowLengthTooSmall
  else if window_length > usizeMax / 2 then .error .MemoryAllocationError
  else if window_length > 2 ^ 24 then .error .WindowLengthTooLarge
  else .ok (hannBody window_length)

/-- The fixed array `HANN_WINDOW_PRECOMPUTED_LENGTHS: [usize; 5]` of
pre-computed window lengths. -/
def HANN_WINDOW_PRECOMPUTED_LENGTHS : List Nat := [256, 512, 1024, 2048, 4096]

/-- Model of the `HANN_WINDOW_LOOKUP_TABLE` lazy static from
`src/hann_window.rs`: an association list keyed by length whose value is the
window computed by `calculate_hann_window`.  The `.expect` call aborts the
process on an error; that branch is modelled by skipping the entry (it is
unreachable, as the fixed lengths are all valid). -/
noncomputable def HANN_WINDOW_LOOKUP_TABLE : List (Nat × List ℝ) :=
  HANN_WINDOW_PRECOMPUTED_LENGTHS.filterMap fun length =>
    match calculate_hann_window length with
    | .ok hann_window => some (length, hann_window)
    | .error _ => none

/-- Model of `get_hann_window` from `src/hann_window.rs`. -/
noncomputable def get_hann_window (window_length : Nat) :
    Except HannWindowError (List ℝ) :=
  if window_length ≤ 1 then .error .WindowLengthTooSmall
  else if window_length > usizeMax / 2 then .error .MemoryAllocationError
  else if window_length > 2 ^ 24 then .error .WindowLengthTooLarge
  else
    match HANN_WINDOW_LOOKUP_TABLE.lookup window_length with
    | some hann_window => .ok hann_window
    | none => calculate_hann_window window_length

/-- The sum-of-squares computation
`hann_window.iter().map(|&x| x.powi(2)).sum()` used in both the
`HANN_WINDOW_SUM_OF_SQUARES` initializer and the miss branch of
`get_hann_window_sum_squares`. -/
noncomputable def sumSquares (hann_window : List ℝ) : ℝ :=
  (hann_window.map fun x => x ^ 2).sum

/-- Model of the `HANN_WINDOW_SUM_OF_SQUARES` lazy static from
`src/sum_of_hann_window_squares.rs`: for each pre-computed length, the sum of
squares of the corresponding `HANN_WINDOW_LOOKUP_TABLE` entry.  As above, the
unreachable `.expect` abort is modelled by skipping the entry. -/
noncomputable def HANN_WINDOW_SUM_OF_SQUARES : List (Nat × ℝ) :=
  HANN_WINDOW_PRECOMPUTED_LENGTHS.filterMap fun length =>
    match HANN_WINDOW_LOOKUP_TABLE.lookup length with
    | some hann_window => some (length, sumSquares hann_window)
    | none => none

/-- Model of `get_hann_window_sum_squares` from
`src/sum_of_hann_window_squares.rs`. -/
noncomputable def get_hann_window_sum_squares (hann_window : List ℝ) : ℝ :=
  match HANN_WINDOW_SUM_OF_SQUARES.lookup hann_window.length with
  | some sum_squares => sum_squares
  | none => sumSquares hann_window

/-! Basic facts about the mirroring loop. -/

lemma getD_set_self (l : List ℝ) (i : Nat) (a : ℝ) (h : i < l.length) :
    (l.set i a).getD i 0 = a := by
  rw [List.getD_eq_getElem?_getD, List.getElem?_set_self h]
  rfl

lemma getD_set_ne (l : List ℝ) (i j : Nat) (a : ℝ) (h : i ≠ j) :
    (l.set i a).getD j 0 = l.getD j 0 := by
  rw [List.getD_eq_getElem?_getD, List.getElem?_set_ne h, ← List.getD_eq_getElem?_getD]

lemma length_hannStep (N : Nat) (w : List ℝ) (i : Nat) :
    (hannStep N w i).length = w.length := by
  simp [hannStep]

lemma length_foldl_hannStep (N : Nat) (l : List Nat) (w : List ℝ) :
    (l.foldl (hannStep N) w).length = w.length := by
  induction l generalizing w with
  | nil => rfl
  | cons a l ih => rw [List.foldl_cons, ih, length_hannStep]

lemma hannBody_length (N : Nat) : (hannBody N).length = N := by
  rw [hannBody, length_foldl_hannStep, List.length_replicate]

/-- Invariant of the mirroring loop: after `k` iterations, index `j` holds the
coefficient for `min j (N - 1 - j)` if that source index has been visited, and
the initial `0.0` otherwise. -/
lemma hannPartial_getD (N : Nat) (hN : 2 ≤ N) :
    ∀ k, k ≤ half_length N → ∀ j, j < N →
      ((List.range k).foldl (hannStep N) (List.replicate N (0 : ℝ))).getD j 0 =
        if min j (N - 1 - j) < k then hannCoeff N (min j (N - 1 - j)) else 0 := by
  intro k
  induction k with
  | zero =>
    intro _ j hj
    rw [if_neg (Nat.not_lt_zero _), List.range_zero, List.foldl_nil,
      List.getD_eq_getElem?_getD, List.getElem?_replicate_of_lt hj]
    rfl
  | succ k ih =>
    intro hk j hj
    have hhalf : half_length N = (N + N % 2) / 2 := rfl
    have hk2 : 2 * k ≤ N - 1 := by omega
    have hkN : k < N := by omega
    have hWlen :
        ((List.range k).foldl (hannStep N) (List.replicate N (0 : ℝ))).length = N := by
      rw [length_foldl_hannStep, List.length_replicate]
    rw [List.range_succ, List.foldl_append, List.foldl_cons, List.foldl_nil]
    set W := (List.range k).foldl (hannStep N) (List.replicate N (0 : ℝ)) with hWdef
    simp only [hannStep]
    rw [getD_set_self W k (hannCoeff N k) (by rw [hWlen]; exact hkN)]
    by_cases hj1 : j = N - 1 - k
    · subst hj1
      rw [getD_set_self _ _ _ (by rw [List.length_set, hWlen]; omega)]
      have h1 : N - 1 - (N - 1 - k) = k := by omega
      rw [h1]
      have h2 : min (N - 1 - k) k = k := by omega
      rw [h2, if_pos (by omega)]
    · rw [getD_set_ne _ _ _ _ (by omega)]
      by_cases hj2 : j = k
      · rw [hj2, getD_set_self _ _ _ (by rw [hWlen]; omega)]
        have h2 : min k (N - 1 - k) = k := by omega
        rw [h2, if_pos (by omega)]
      · rw [getD_set_ne _ _ _ _ (by omega)]
        rw [ih (by omega) j hj]
        have hne : min j (N - 1 - j) ≠ k := by omega
        by_cases hlt : min j (N - 1 - j) < k
        · rw [if_pos hlt, if_pos (by omega)]
        · rw [if_neg hlt, if_neg (by omega)]

/-- Pointwise description of the computed window. -/
lemma hannBody_getD (N : Nat) (hN : 2 ≤ N) (j : Nat) (hj : j < N) :
    (hannBody N).getD j 0 = hannCoeff N (min j (N - 1 - j)) := by
  have hhalf : half_length N = (N + N % 2) / 2 := rfl
  rw [hannBody, hannPartial_getD N hN (half_length N) le_rfl j hj, if_pos (by omega)]

/-! Values of individual coefficients. -/

lemma hannCoeff_zero (N : Nat) : hannCoeff N 0 = 0 := by
  simp [hannCoeff, Real.cos_zero]

/-- For odd window lengths the midpoint coefficient is exactly `1`:
the cosine argument is exactly `π`. -/
lemma hannCoeff_mid (N : Nat) (h2 : 2 ≤ N) (hodd : N % 2 = 1) :
    hannCoeff N ((N - 1) / 2) = 1 := by
  obtain ⟨m, hm, hm0⟩ : ∃ m, N - 1 = 2 * m ∧ 0 < m := ⟨(N - 1) / 2, by omega, by omega⟩
  have hm' : (N - 1) / 2 = m := by omega
  have hmne : (m : ℝ) ≠ 0 := Nat.cast_ne_zero.mpr (by omega)
  rw [hannCoeff, scaling_factor, hm', hm]
  have harg : Real.pi * 2 / ((2 * m : Nat) : ℝ) * ((m : Nat) : ℝ) = Real.pi := by
    push_cast
    field_simp
    ring
  rw [harg, Real.cos_pi]
  norm_num

/-! Validation arithmetic. -/

lemma pow24_eq : (2 : Nat) ^ 24 = 16777216 := by norm_num

lemma usizeMax_div2 : usizeMax / 2 = 9223372036854775807 := by norm_num [usizeMax]

/-- For a valid length, `calculate_hann_window` succeeds with the computed
window. -/
lemma calculate_eq_body (N : Nat) (h2 : 2 ≤ N) (h24 : N ≤ 2 ^ 24) :
    calculate_hann_window N = .ok (hannBody N) := by
  rw [pow24_eq] at h24
  rw [calculate_hann_window, pow24_eq, usizeMax_div2]
  rw [if_neg (by omega), if_neg (by omega), if_neg (by omega)]

/-- Explicit form of the window lookup table. -/
lemma table_eq : HANN_WINDOW_LOOKUP_TABLE =
    [(256, hannBody 256), (512, hannBody 512), (1024, hannBody 1024),
     (2048, hannBody 2048), (4096, hannBody 4096)] := by
  rw [HANN_WINDOW_LOOKUP_TABLE, HANN_WINDOW_PRECOMPUTED_LENGTHS]
  simp only [List.filterMap_cons, List.filterMap_nil,
    calculate_eq_body 256 (by norm_num) (by norm_num),
    calculate_eq_body 512 (by norm_num) (by norm_num),
    calculate_eq_body 1024 (by norm_num) (by norm_num),
    calculate_eq_body 2048 (by norm_num) (by norm_num),
    calculate_eq_body 4096 (by norm_num) (by norm_num)]

/-- A window-table lookup either misses, or returns exactly the freshly
computed window for that length. -/
lemma lookup_table_eq_none_or (N : Nat) :
    HANN_WINDOW_LOOKUP_TABLE.lookup N = none ∨
    HANN_WINDOW_LOOKUP_TABLE.lookup N = some (hannBody N) := by
  rw [table_eq]
  by_cases h1 : N = 256
  · right; subst h1; simp [List.lookup]
  by_cases h2 : N = 512
  · right; subst h2; simp [List.lookup]
  by_cases h3 : N = 1024
  · right; subst h3; simp [List.lookup]
  by_cases h4 : N = 2048
  · right; subst h4; simp [List.lookup]
  by_cases h5 : N = 4096
  · right; subst h5; simp [List.lookup]
  left
  have e1 : (N == 256) = false := beq_eq_false_iff_ne.mpr h1
  have e2 : (N == 512) = false := beq_eq_false_iff_ne.mpr h2
  have e3 : (N == 1024) = false := beq_eq_false_iff_ne.mpr h3
  have e4 : (N == 2048) = false := beq_eq_false_iff_ne.mpr h4
  have e5 : (N == 4096) = false := beq_eq_false_iff_ne.mpr h5
  simp [List.lookup, e1, e2, e3, e4, e5]

/-- The cached path and the fresh-computation path agree everywhere. -/
lemma get_eq_calculate_aux (N : Nat) :
    get_hann_window N = calculate_hann_window N := by
  rw [get_hann_window, calculate_hann_window]
  split_ifs with h1 h2 h3
  · rfl
  · rfl
  · rfl
  · rcases lookup_table_eq_none_or N with h | h <;> rw [h]

/-- For a valid length, `get_hann_window` succeeds with the computed window. -/
lemma get_hann_window_ok (N : Nat) (h2 : 2 ≤ N) (h24 : N ≤ 2 ^ 24) :
    get_hann_window N = .ok (hannBody N) := by
  rw [get_eq_calculate_aux]
  exact calculate_eq_body N h2 h24

/-- Explicit form of the sum-of-squares lookup table. -/
lemma sum_table_eq : HANN_WINDOW_SUM_OF_SQUARES =
    [(256, sumSquares (hannBody 256)), (512, sumSquares (hannBody 512)),
     (1024, sumSquares (hannBody 1024)), (2048, sumSquares (hannBody 2048)),
     (4096, sumSquares (hannBody 4096))] := by
  rw [HANN_WINDOW_SUM_OF_SQUARES, HANN_WINDOW_PRECOMPUTED_LENGTHS, table_eq]
  simp [List.lookup]

/-- Every pre-computed length has its freshly computed window in the window
cache. -/
lemma window_cache_at (N : Nat) (h : N ∈ HANN_WINDOW_PRECOMPUTED_LENGTHS) :
    HANN_WINDOW_LOOKUP_TABLE.lookup N = some (hannBody N) := by
  fin_cases h <;> · rw [table_eq]; simp [List.lookup]

/-- Every pre-computed length has the sum of squares of its freshly computed
window in the sum-of-squares cache. -/
lemma sum_cache_at (N : Nat) (h : N ∈ HANN_WINDOW_PRECOMPUTED_LENGTHS) :
    HANN_WINDOW_SUM_OF_SQUARES.lookup N = some (sumSquares (hannBody N)) := by
  fin_cases h <;> · rw [sum_table_eq]; simp [List.lookup]

/-- Lengths outside the fixed key set miss the sum-of-squares cache. -/
lemma sum_lookup_none (L : Nat) (h : L ∉ HANN_WINDOW_PRECOMPUTED_LENGTHS) :
    HANN_WINDOW_SUM_OF_SQUARES.lookup L = none := by
  rw [sum_table_eq]
  simp only [HANN_WINDOW_PRECOMPUTED_LENGTHS, List.mem_cons, not_or] at h
  obtain ⟨h1, h2, h3, h4, h5, -⟩ := h
  have e1 : (L == 256) = false := beq_eq_false_iff_ne.mpr h1
  have e2 : (L == 512) = false := beq_eq_false_iff_ne.mpr h2
  have e3 : (L == 1024) = false := beq_eq_false_iff_ne.mpr h3
  have e4 : (L == 2048) = false := beq_eq_false_iff_ne.mpr h4
  have e5 : (L == 4096) = false := beq_eq_false_iff_ne.mpr h5
  simp [List.lookup, e1, e2, e3, e4, e5]

/-- On a cache hit, `get_hann_window_sum_squares` returns the cached value,
which is the sum of squares of the freshly computed window of that length. -/
lemma get_sum_squares_cached (N : Nat) (h : N ∈ HANN_WINDOW_PRECOMPUTED_LENGTHS)
    (w : List ℝ) (hw : w.length = N) :
    get_hann_window_sum_squares w = sumSquares (hannBody N) := by
  rw [get_hann_window_sum_squares, hw, sum_cache_at N h]

/-- On a cache miss, `get_hann_window_sum_squares` computes the sum of squares
directly from its argument. -/
lemma get_sum_squares_uncached (w : List ℝ)
    (h : w.length ∉ HANN_WINDOW_PRECOMPUTED_LENGTHS) :
    get_hann_window_sum_squares w = sumSquares w := by
  rw [get_hann_window_sum_squares, sum_lookup_none w.length h]

/-- The sum of squares is the left-to-right fold of squaring over the list. -/
lemma sumSquares_eq_foldl (w : List ℝ) :
    sumSquares w = w.foldl (fun acc x => acc + x ^ 2) 0 := by
  rw [sumSquares, List.sum_eq_foldl, List.foldl_map]

/-! Claim theorems. -/

/-- C1: for every length `N` with `2 ≤ N ≤ 2 ^ 24`, `get_hann_window N`
returns `Ok` with a sequence whose length is exactly `N`. -/
theorem claim_get_hann_window_ok_length (N : Nat) (h2 : 2 ≤ N) (h24 : N ≤ 2 ^ 24) :
    ∃ w, get_hann_window N = .ok w ∧ w.length = N :=
  ⟨hannBody N, get_hann_window_ok N h2 h24, hannBody_length N⟩

/-- Witness for C1 at `N = 10`. -/
theorem claim_get_hann_window_ok_length_witness :
    ∃ w, get_hann_window 10 = .ok w ∧ w.length = 10 :=
  claim_get_hann_window_ok_length 10 (by norm_num) (by norm_num)

/-- C2: `get_hann_window L` returns an error exactly when `L ≤ 1` or
`L > 2 ^ 24`, with the error kind decided by the first applicable rule in
order (`WindowLengthTooSmall`, then `MemoryAllocationError` for
`L > usizeMax / 2`, then `WindowLengthTooLarge`); in particular
`get_hann_window 1` is `WindowLengthTooSmall`, `get_hann_window (2 ^ 25)` is
`WindowLengthTooLarge`, and `get_hann_window (usizeMax / 2 + 1)` is
`MemoryAllocationError`. -/
theorem claim_get_hann_window_error_spec (L : Nat) :
    ((∃ e, get_hann_window L = .error e) ↔ L ≤ 1 ∨ 2 ^ 24 < L) ∧
    (L ≤ 1 → get_hann_window L = .error .WindowLengthTooSmall) ∧
    (usizeMax / 2 < L → get_hann_window L = .error .MemoryAllocationError) ∧
    (2 ^ 24 < L → L ≤ usizeMax / 2 →
      get_hann_window L = .error .WindowLengthTooLarge) ∧
    get_hann_window 1 = .error .WindowLengthTooSmall ∧
    get_hann_window (2 ^ 25) = .error .WindowLengthTooLarge ∧
    get_hann_window (usizeMax / 2 + 1) = .error .MemoryAllocationError := by
  refine ⟨⟨?_, ?_⟩, ?_, ?_, ?_, ?_, ?_, ?_⟩
  · rintro ⟨e, he⟩
    by_contra hcon
    push_neg at hcon
    obtain ⟨hg1, hg2⟩ := hcon
    rw [get_hann_window_ok L (by omega) hg2] at he
    exact Except.noConfusion he
  · intro h
    by_cases h1 : L ≤ 1
    · exact ⟨.WindowLengthTooSmall, by rw [get_hann_window, if_pos h1]⟩
    · have h24 : 2 ^ 24 < L := h.resolve_left h1
      by_cases hmem : L > usizeMax / 2
      · exact ⟨.MemoryAllocationError, by
          rw [get_hann_window, if_neg h1, if_pos hmem]⟩
      · exact ⟨.WindowLengthTooLarge, by
          rw [get_hann_window, if_neg h1, if_neg hmem, if_pos h24]⟩
  · intro h1
    rw [get_hann_window, if_pos h1]
  · intro hmem
    rw [get_hann_window, if_neg (by rw [usizeMax_div2] at hmem; omega), if_pos hmem]
  · intro h24 hmem
    rw [get_hann_window, if_neg (by rw [pow24_eq] at h24; omega),
      if_neg (by omega), if_pos h24]
  · rw [get_hann_window, if_pos (by norm_num)]
  · rw [get_hann_window, if_neg (by norm_num),
      if_neg (by rw [usizeMax_div2]; norm_num), if_pos (by norm_num)]
  · rw [get_hann_window, if_neg (by rw [usizeMax_div2]; norm_num),
      if_pos (by omega)]

/-- Witness for C2 at `L = 1`, discharging the first validation rule. -/
theorem claim_get_hann_window_error_spec_witness :
    get_hann_window 1 = .error .WindowLengthTooSmall :=
  (claim_get_hann_window_error_spec 1).2.1 (by norm_num)

/-- C3: for every length, `get_hann_window` and `calculate_hann_window` return
exactly the same result, so serving from the pre-computed cache is
observationally equivalent to computing fresh. -/
theorem claim_get_eq_calculate (L : Nat) :
    get_hann_window L = calculate_hann_window L :=
  get_eq_calculate_aux L

/-- C4: for every valid length and every index `i < N`, the returned window
satisfies `window[i] = window[N - 1 - i]`. -/
theorem claim_window_symmetric (N : Nat) (h2 : 2 ≤ N) (h24 : N ≤ 2 ^ 24)
    (w : List ℝ) (hw : get_hann_window N = .ok w) (i : Nat) (hi : i < N) :
    w.getD i 0 = w.getD (N - 1 - i) 0 := by
  rw [get_hann_window_ok N h2 h24] at hw
  injection hw with h
  subst h
  rw [hannBody_getD N h2 i hi, hannBody_getD N h2 (N - 1 - i) (by omega)]
  have hmin : min (N - 1 - i) (N - 1 - (N - 1 - i)) = min i (N - 1 - i) := by omega
  rw [hmin]

/-- Witness for C4 at `N = 10`, `i = 1`. -/
theorem claim_window_symmetric_witness :
    (hannBody 10).getD 1 0 = (hannBody 10).getD (10 - 1 - 1) 0 :=
  claim_window_symmetric 10 (by norm_num) (by norm_num) (hannBody 10)
    (get_hann_window_ok 10 (by norm_num) (by norm_num)) 1 (by norm_num)

/-- C5: for every cached length, the sum-of-squares cache entry equals the sum
of squared coefficients of the corresponding window-cache entry, and
`get_hann_window_sum_squares` applied to the window returned by
`get_hann_window` equals the direct cache-free sum of squares. -/
theorem claim_sum_cache_consistent (N : Nat)
    (h : N ∈ HANN_WINDOW_PRECOMPUTED_LENGTHS) :
    ∃ w, get_hann_window N = .ok w ∧
      HANN_WINDOW_LOOKUP_TABLE.lookup N = some w ∧
      HANN_WINDOW_SUM_OF_SQUARES.lookup N = some (sumSquares w) ∧
      get_hann_window_sum_squares w = sumSquares w := by
  have h2 : 2 ≤ N := by fin_cases h <;> norm_num
  have h24 : N ≤ 2 ^ 24 := by fin_cases h <;> norm_num
  exact ⟨hannBody N, get_hann_window_ok N h2 h24, window_cache_at N h,
    sum_cache_at N h, get_sum_squares_cached N h (hannBody N) (hannBody_length N)⟩

/-- Witness for C5 at the cached length `256`. -/
theorem claim_sum_cache_consistent_witness :
    ∃ w, get_hann_window 256 = .ok w ∧
      HANN_WINDOW_LOOKUP_TABLE.lookup 256 = some w ∧
      HANN_WINDOW_SUM_OF_SQUARES.lookup 256 = some (sumSquares w) ∧
      get_hann_window_sum_squares w = sumSquares w :=
  claim_sum_cache_consistent 256 (by decide)

/-- C6: for every input vector whose length is not a pre-computed length,
`get_hann_window_sum_squares` returns the left-to-right fold of the squares of
its elements. -/
theorem claim_sum_squares_uncached (w : List ℝ)
    (h : w.length ∉ HANN_WINDOW_PRECOMPUTED_LENGTHS) :
    get_hann_window_sum_squares w = w.foldl (fun acc x => acc + x ^ 2) 0 := by
  rw [get_sum_squares_uncached w h, sumSquares_eq_foldl]

/-- Witness for C6 on the length-2 vector `[1, 2]`. -/
theorem claim_sum_squares_uncached_witness :
    get_hann_window_sum_squares [1, 2] =
      ([1, 2] : List ℝ).foldl (fun acc x => acc + x ^ 2) 0 :=
  claim_sum_squares_uncached [1, 2] (by decide)

/-- C7: for any two vectors of the same length, if that length is one of the
pre-computed lengths then `get_hann_window_sum_squares` returns the same value
for both: on a cache hit the result depends only on the input's length. -/
theorem claim_sum_squares_depends_only_on_length (v w : List ℝ)
    (hlen : v.length = w.length)
    (h : v.length ∈ HANN_WINDOW_PRECOMPUTED_LENGTHS) :
    get_hann_window_sum_squares v = get_hann_window_sum_squares w := by
  rw [get_sum_squares_cached v.length h v rfl,
    get_sum_squares_cached v.length h w hlen.symm]

/-- Witness for C7 on two distinct length-256 vectors. -/
theorem claim_sum_squares_depends_only_on_length_witness :
    get_hann_window_sum_squares (List.replicate 256 (0 : ℝ)) =
      get_hann_window_sum_squares (List.replicate 256 (1 : ℝ)) :=
  claim_sum_squares_depends_only_on_length _ _
    (by rw [List.length_replicate, List.length_replicate])
    (by rw [List.length_replicate]; decide)

/-- C8: for every valid length, the returned window has `window[0] = 0` and
`window[N - 1] = 0` exactly. -/
theorem claim_window_boundary (N : Nat) (h2 : 2 ≤ N) (h24 : N ≤ 2 ^ 24)
    (w : List ℝ) (hw : get_hann_window N = .ok w) :
    w.getD 0 0 = 0 ∧ w.getD (N - 1) 0 = 0 := by
  rw [get_hann_window_ok N h2 h24] at hw
  injection hw with h
  subst h
  constructor
  · rw [hannBody_getD N h2 0 (by omega)]
    have hmin : min 0 (N - 1 - 0) = 0 := by omega
    rw [hmin, hannCoeff_zero]
  · rw [hannBody_getD N h2 (N - 1) (by omega)]
    have hmin : min (N - 1) (N - 1 - (N - 1)) = 0 := by omega
    rw [hmin, hannCoeff_zero]

/-- Witness for C8 at `N = 10`. -/
theorem claim_window_boundary_witness :
    (hannBody 10).getD 0 0 = 0 ∧ (hannBody 10).getD (10 - 1) 0 = 0 :=
  claim_window_boundary 10 (by norm_num) (by norm_num) (hannBody 10)
    (get_hann_window_ok 10 (by norm_num) (by norm_num))

/-- C9: for every odd valid length, the returned window's midpoint coefficient,
at index `(N - 1) / 2`, equals exactly `1`. -/
theorem claim_window_midpoint (N : Nat) (h2 : 2 ≤ N) (h24 : N ≤ 2 ^ 24)
    (hodd : N % 2 = 1) (w : List ℝ) (hw : get_hann_window N = .ok w) :
    w.getD ((N - 1) / 2) 0 = 1 := by
  rw [get_hann_window_ok N h2 h24] at hw
  injection hw with h
  subst h
  rw [hannBody_getD N h2 ((N - 1) / 2) (by omega)]
  have hmin : min ((N - 1) / 2) (N - 1 - (N - 1) / 2) = (N - 1) / 2 := by omega
  rw [hmin, hannCoeff_mid N h2 hodd]

/-- Witness for C9 at `N = 5`. -/
theorem claim_window_midpoint_witness :
    (hannBody 5).getD ((5 - 1) / 2) 0 = 1 :=
  claim_window_midpoint 5 (by norm_num) (by norm_num) (by norm_num) (hannBody 5)
    (get_hann_window_ok 5 (by norm_num) (by norm_num))

/-- C10: for every valid length, every iteration `i` of the mirroring loop
(which runs for `i < half_length N`) accesses only in-bounds indices `i` and
`N - 1 - i`, the `N - 1` divisor never underflows, and the computed window is
total with length `N`. -/
theorem claim_loop_in_bounds (N : Nat) (h2 : 2 ≤ N) (h24 : N ≤ 2 ^ 24)
    (i : Nat) (hi : i < half_length N) :
    i < N ∧ N - 1 - i < N ∧ 1 ≤ N - 1 ∧ (hannBody N).length = N := by
  have hhalf : half_length N = (N + N % 2) / 2 := rfl
  exact ⟨by omega, by omega, by omega, hannBody_length N⟩

/-- Witness for C10 at `N = 10`, `i = 4`. -/
theorem claim_loop_in_bounds_witness :
    4 < 10 ∧ 10 - 1 - 4 < 10 ∧ 1 ≤ 10 - 1 ∧ (hannBody 10).length = 10 :=
  claim_loop_in_bounds 10 (by norm_num) (by norm_num) 4 (by decide)

end HannRs
